import Mathlib

/-!
Shallow embedding of the exoquic-sub client SDK (src/src/index.js and the
related revision src/unnamed/part_000).

The repository holds three revisions of the same module; where they differ the
embedding carries one definition per revision:
  * `authorizeSubscriberV1` — `SubscriptionManager.authorizeSubscriber` of the
    primary revision (src/src/index.js, first document): localStorage-backed
    token cache, no replay-partition clear on token renewal.
  * `authorizeSubscriberP` — the part_000 revision: IndexedDB-backed token
    cache, clears every registered subscriber partition on token renewal.
  * `authorizeSubscriberNoCache` — the cache-disabled path (identical in all
    revisions).
The connection state machine (`subscribeFn`, `onClose`, `reconnectTimerFire`,
`unsubscribeFn`) is identical in all revisions and is embedded once.
-/

/-- An event batch as it appears to the client after JSON deserialization:
an ordered sequence of events (events themselves are opaque, numbered). -/
abbrev Batch := List Nat

/-- A JavaScript value as far as the token-handling code can observe it:
a string, `null`/`undefined`, or some truthy non-string value. -/
inductive JsVal where
  | str (s : String)
  | nullv
  | obj
deriving DecidableEq, Repr

/-- JavaScript truthiness test used by `if (!subscriptionToken)`:
`null`/`undefined` and the empty string are falsy. -/
def JsVal.falsy : JsVal → Bool
  | .nullv => true
  | .str s => s == ""
  | .obj => false

/-- The claims a decoded subscription token carries
(`{topic, channel, subscriptionId, exp}`, with `exp` in epoch seconds). -/
structure DecodedToken where
  topic : String
  channel : String
  subscriptionId : String
  exp : Nat
deriving DecidableEq, Repr

/-- Errors `authorizeSubscriber` can surface to its caller. -/
inductive AuthError where
  /-- The fetcher collaborator rejected; the rejection propagates. -/
  | fetchRejected
  /-- `jwtDecode` threw (non-string, empty, or undecodable token). -/
  | invalidToken
  /-- The explicit `throw new Error("... returned null")` at the end of the
  cache-enabled path. -/
  | nullTokenError
  /-- The explicit non-string `throw` at the end of the cache-enabled path. -/
  | nonStringError
deriving DecidableEq, Repr

/-- Equality of `Except` results is decidable when it is on both components;
used to evaluate the concrete authorization scenarios. -/
instance exceptDecEq {ε α : Type} [DecidableEq ε] [DecidableEq α] :
    DecidableEq (Except ε α)
  | .ok a, .ok b =>
    if h : a = b then isTrue (by rw [h]) else isFalse (by simp [h])
  | .ok _, .error _ => isFalse (by simp)
  | .error _, .ok _ => isFalse (by simp)
  | .error a, .error b =>
    if h : a = b then isTrue (by rw [h]) else isFalse (by simp [h])

/-- Environment of one `authorizeSubscriber` call: the current epoch second
(`Math.floor(Date.now() / 1000)`), the fetcher collaborator result (the same
on every call within the run), and the decode collaborator. -/
structure AuthEnv where
  now : Nat
  fetch : Except Unit JsVal
  decode : String → Option DecodedToken

/-- Model of the external token-decode collaborator (`jwtDecode` of the
jwt-decode library, spec section 6): it throws unless given a nonempty string,
and throws on strings the ambient `decode` map cannot decode. -/
def jwtDecodeE (decode : String → Option DecodedToken) : JsVal → Except AuthError DecodedToken
  | .str s =>
      if s == "" then .error .invalidToken
      else
        match decode s with
        | some d => .ok d
        | none => .error .invalidToken
  | _ => .error .invalidToken

/-- Observable outcome of a successful cache-enabled `authorizeSubscriber`
call in the primary revision: the token and decoded claims handed to the new
`AuthorizedSubscriber`, the localStorage entry, and the replay-cache
partition contents after the call. -/
structure AuthOutcomeV1 where
  token : JsVal
  decoded : DecodedToken
  cachedToken : Option JsVal
  partition : List Batch
deriving DecidableEq, Repr

/-- Tail of the cache-enabled path of the primary revision
(src/src/index.js lines 47-56): the `!subscriptionToken` and
non-string-typeof checks, then the `AuthorizedSubscriber` construction. -/
def finishV1 (calls : Nat) (tok : JsVal) (dec : DecodedToken) (store : Option JsVal)
    (partition : List Batch) : Nat × Except AuthError AuthOutcomeV1 :=
  if tok.falsy then (calls, .error .nullTokenError)
  else
    match tok with
    | .str s => (calls, .ok ⟨.str s, dec, store, partition⟩)
    | _ => (calls, .error .nonStringError)

/-- `SubscriptionManager.authorizeSubscriber`, cache-enabled path of the
primary revision (src/src/index.js lines 29-56). `cached` is the localStorage
entry for this subscription key, `partition` the replay-cache partition for
the decoded claims. Returns the number of fetcher invocations paired with
either the thrown error or the observable outcome. The partition is passed
through untouched: this revision never clears it. -/
def authorizeSubscriberV1 (env : AuthEnv) (cached : Option JsVal) (partition : List Batch) :
    Nat × Except AuthError AuthOutcomeV1 :=
  let cachedTok := cached.getD JsVal.nullv
  let fetched : Nat × Except AuthError (JsVal × Option JsVal) :=
    if cachedTok.falsy then
      match env.fetch with
      | .ok v => (1, .ok (v, some v))
      | .error _ => (1, .error .fetchRejected)
    else (0, .ok (cachedTok, cached))
  match fetched with
  | (c, .error e) => (c, .error e)
  | (c, .ok (tok, store)) =>
    match jwtDecodeE env.decode tok with
    | .error e => (c, .error e)
    | .ok dec =>
      if dec.exp < env.now then
        match env.fetch with
        | .error _ => (c + 1, .error .fetchRejected)
        | .ok tok2 =>
          match jwtDecodeE env.decode tok2 with
          | .error e => (c + 1, .error e)
          | .ok dec2 => finishV1 (c + 1) tok2 dec2 (some tok2) partition
      else finishV1 c tok dec store partition

/-- Observable outcome of a successful cache-enabled `authorizeSubscriber`
call in the part_000 revision; `partitions` are the replay-cache partitions
(store name paired with contents) after the call. -/
structure AuthOutcomeP where
  token : JsVal
  decoded : DecodedToken
  cachedToken : Option JsVal
  partitions : List (String × List Batch)
deriving DecidableEq, Repr

/-- The renewal purge of the part_000 revision (lines 99-101):
`for (const subscriber of this.cachedSubscribers) await this.db.clear(subscriber.name)`. -/
def clearSubscriberPartitions (subs : List String) (parts : List (String × List Batch)) :
    List (String × List Batch) :=
  parts.map fun p => if p.1 ∈ subs then (p.1, []) else p

/-- Tail of the cache-enabled path of the part_000 revision
(lines 105-122): null/non-string checks, then construction. -/
def finishP (calls : Nat) (tok : JsVal) (dec : DecodedToken) (store : Option JsVal)
    (parts : List (String × List Batch)) : Nat × Except AuthError AuthOutcomeP :=
  if tok.falsy then (calls, .error .nullTokenError)
  else
    match tok with
    | .str s => (calls, .ok ⟨.str s, dec, store, parts⟩)
    | _ => (calls, .error .nonStringError)

/-- `SubscriptionManager.authorizeSubscriber`, cache-enabled path of the
part_000 revision (lines 84-122). `subs` are the registered
`cachedSubscribers` names; on token renewal every registered partition is
cleared before the new token is decoded. -/
def authorizeSubscriberP (env : AuthEnv) (subs : List String) (cached : Option JsVal)
    (parts : List (String × List Batch)) : Nat × Except AuthError AuthOutcomeP :=
  let cachedTok := cached.getD JsVal.nullv
  let fetched : Nat × Except AuthError (JsVal × Option JsVal) :=
    if cachedTok.falsy then
      match env.fetch with
      | .ok v => (1, .ok (v, some v))
      | .error _ => (1, .error .fetchRejected)
    else (0, .ok (cachedTok, cached))
  match fetched with
  | (c, .error e) => (c, .error e)
  | (c, .ok (tok, store)) =>
    match jwtDecodeE env.decode tok with
    | .error e => (c, .error e)
    | .ok dec =>
      if dec.exp < env.now then
        match env.fetch with
        | .error _ => (c + 1, .error .fetchRejected)
        | .ok tok2 =>
          let parts2 := clearSubscriberPartitions subs parts
          match jwtDecodeE env.decode tok2 with
          | .error e => (c + 1, .error e)
          | .ok dec2 => finishP (c + 1) tok2 dec2 (some tok2) parts2
      else finishP c tok dec store parts

/-- `SubscriptionManager.authorizeSubscriber`, cache-disabled path
(src/src/index.js lines 22-27, identical in every revision): fetch, decode,
construct — with no explicit null/non-string validation of its own. -/
def authorizeSubscriberNoCache (env : AuthEnv) :
    Nat × Except AuthError (JsVal × DecodedToken) :=
  match env.fetch with
  | .error _ => (1, .error .fetchRejected)
  | .ok v =>
    match jwtDecodeE env.decode v with
    | .error e => (1, .error e)
    | .ok dec => (1, .ok (v, dec))

/-- Connection settings of an `AuthorizedSubscriber`
(src/src/index.js lines 59-64 and constructor lines 67-94). Timeouts are in
milliseconds; rationals model the JavaScript numbers exactly (the backoff
multiplies by 1.5). -/
structure ConnectionSettings where
  shouldReconnect : Bool
  reconnectTimeout : ℚ
  maxReconnectTimeout : ℚ
deriving DecidableEq, Repr

/-- `DEFAULT_AUTHORIZED_SUBSCRIPTION_SETTINGS` (src/src/index.js lines 59-64). -/
def DEFAULT_AUTHORIZED_SUBSCRIPTION_SETTINGS : ConnectionSettings :=
  { shouldReconnect := true
    reconnectTimeout := 1000
    maxReconnectTimeout := 10000 }

/-- Observable state of one `AuthorizedSubscriber` instance, together with
instrumentation of the environment effects the claims are about: `ws` is the
identifier of the currently owned WebSocket (`none` before the first
`subscribe()`, since the constructor never initializes `this.ws`),
`socketsCreated` counts `new WebSocket(...)` constructions,
`pendingReconnects` counts scheduled, not-yet-fired reconnect timers, and
`scheduledDelays` records the wait passed to each `setTimeout` in order. -/
structure WsState where
  isSubscribed : Bool
  isConnected : Bool
  shouldReconnect : Bool
  reconnectTimeout : ℚ
  maxReconnectTimeout : ℚ
  ws : Option Nat
  socketsCreated : Nat
  pendingReconnects : Nat
  scheduledDelays : List ℚ
deriving DecidableEq, Repr

/-- The `AuthorizedSubscriber` constructor (src/src/index.js lines 67-94):
settings copied onto the instance, `isSubscribed`/`isConnected` cleared,
`this.ws` left unassigned. -/
def newAuthorizedSubscriber (settings : ConnectionSettings) : WsState :=
  { isSubscribed := false
    isConnected := false
    shouldReconnect := settings.shouldReconnect
    reconnectTimeout := settings.reconnectTimeout
    maxReconnectTimeout := settings.maxReconnectTimeout
    ws := none
    socketsCreated := 0
    pendingReconnects := 0
    scheduledDelays := [] }

/-- A fresh subscriber built with the default settings. -/
def initSubscriber : WsState :=
  newAuthorizedSubscriber DEFAULT_AUTHORIZED_SUBSCRIPTION_SETTINGS

/-- `AuthorizedSubscriber.subscribe` (src/src/index.js lines 143-150 and 229):
early return (yielding `undefined`, modelled `none`) under the `isSubscribed`
guard; otherwise construct a WebSocket, set `isSubscribed`, and `return this`
(modelled as `some` of the updated instance). -/
def subscribeFn (s : WsState) : WsState × Option WsState :=
  if s.isSubscribed then (s, none)
  else
    let s2 := { s with
      ws := some s.socketsCreated
      socketsCreated := s.socketsCreated + 1
      isSubscribed := true }
    (s2, some s2)

/-- The `ws.onopen` handler (src/src/index.js lines 206-208). -/
def onOpen (s : WsState) : WsState :=
  { s with isConnected := true }

/-- The `ws.onclose` handler (src/src/index.js lines 210-221): clear
`isConnected`; when `shouldReconnect` holds and the close code is not 1000,
schedule a reconnect timer with the current `reconnectTimeout` as delay. -/
def onClose (code : Nat) (s : WsState) : WsState :=
  let s1 := { s with isConnected := false }
  if s1.shouldReconnect && !(code == 1000) then
    { s1 with
      pendingReconnects := s1.pendingReconnects + 1
      scheduledDelays := s1.scheduledDelays ++ [s1.reconnectTimeout] }
  else s1

/-- The body of the reconnect timer (src/src/index.js lines 216-219), run at
fire time: grow `reconnectTimeout` to `min(reconnectTimeout * 1.5,
maxReconnectTimeout)`, then call `subscribe` again. -/
def reconnectTimerFire (s : WsState) : WsState :=
  let s1 := { s with
    reconnectTimeout := min (s.reconnectTimeout * (3 / 2)) s.maxReconnectTimeout
    pendingReconnects := s.pendingReconnects - 1 }
  (subscribeFn s1).1

/-- A JavaScript runtime error observable from the embedded code. -/
inductive JsError where
  /-- `TypeError`: calling `.close()` on the undefined `this.ws`. -/
  | typeError
deriving DecidableEq, Repr

/-- `AuthorizedSubscriber.unsubscribe` (src/src/index.js lines 232-235):
clear `isSubscribed`, then `this.ws.close(1000, "unsubscribe")` — a
`TypeError` when `this.ws` was never assigned (the field mutation has already
happened when the error is thrown). -/
def unsubscribeFn (s : WsState) : WsState × Option JsError :=
  let s1 := { s with isSubscribed := false }
  match s1.ws with
  | none => (s1, some JsError.typeError)
  | some _ => (s1, none)

/-- The events that can act on a subscriber instance: the two public calls,
the three socket events that change state, and a reconnect-timer firing. -/
inductive SubEvent where
  | subscribeCall
  | openEvt
  | closeEvt (code : Nat)
  | timerFire
  | unsubscribeCall
deriving DecidableEq, Repr

/-- One step of the subscriber lifecycle: dispatch an event to the handler
the source installs for it. -/
def step : SubEvent → WsState → WsState
  | .subscribeCall, s => (subscribeFn s).1
  | .openEvt, s => onOpen s
  | .closeEvt code, s => onClose code s
  | .timerFire, s => reconnectTimerFire s
  | .unsubscribeCall, s => (unsubscribeFn s).1

/-- The backoff update of the source, `Math.min(reconnectTimeout * 1.5,
maxReconnectTimeout)` (src/src/index.js line 217). -/
def nextReconnectTimeout (rt maxRt : ℚ) : ℚ :=
  min (rt * (3 / 2)) maxRt

/-- Successive values of the `reconnectTimeout` field under default settings:
1000 initially, then the update of the source with cap 10000 at each timer fire. -/
def delaySeq : Nat → ℚ
  | 0 => 1000
  | n + 1 => nextReconnectTimeout (delaySeq n) 10000

/-- The `events.forEach(eventBatch => onEventBatchReceivedCallback(eventBatch))`
replay drain (src/src/index.js lines 166-168): each cached batch is handed to
the application callback in insertion order. -/
def drainCached (cached : List Batch) : List Batch :=
  cached.foldl (fun acc b => acc ++ [b]) []

/-- The `ws.onmessage` handler of the cache-enabled path in the primary
revision (src/src/index.js lines 170-174), acting on the pair
(callback deliveries so far, partition contents so far): deliver the parsed
batch to the callback, then `add` it to the partition. No empty-batch guard. -/
def liveStepV1 (p : List Batch × List Batch) (b : Batch) : List Batch × List Batch :=
  (p.1 ++ [b], p.2 ++ [b])

/-- The observable effect of one cache-enabled `subscribe()` cycle in the
primary revision (src/src/index.js lines 152-198): read the partition, drain
it through the callback, and only then wire `ws.onmessage`, which processes
the live batches in arrival order. Returns (callback deliveries, final
partition contents). -/
def subscribeCachedRunV1 (cached live : List Batch) : List Batch × List Batch :=
  live.foldl liveStepV1 (drainCached cached, cached)

/-- The `ws.onmessage` handler of the cache-enabled path in the second
revision (src/src/index.js lines 416-423), per message: the
`parsedEventBatch.length <= 0` guard returns early; otherwise the batch is
delivered to the callback and appended to the partition. Result: (callback
invocations, partition appends) caused by this one message. -/
def onmessageCachedGuarded (b : Batch) : List Batch × List Batch :=
  if b.length ≤ 0 then ([], [])
  else ([b], [b])

/-- The `ws.onmessage` handler of the cache-enabled path in the primary
revision (src/src/index.js lines 170-174), per message: no guard — the batch
is always delivered and appended. -/
def onmessageCachedUnguarded (b : Batch) : List Batch × List Batch :=
  ([b], [b])

/-- The `ws.onmessage` handler of the cache-disabled path
(src/src/index.js lines 201-204, identical in every revision), per message:
the parsed batch is always delivered to the callback; there is no cache. -/
def onmessageNoCache (b : Batch) : List Batch :=
  [b]

/-- A session with repeated failed reconnects: start with one `subscribe()`,
then iterate (non-clean close with code 1006, reconnect timer fires). The
delays recorded by `scheduledDelays` are the waits passed to `setTimeout`. -/
def retryRun : Nat → WsState
  | 0 => (subscribeFn initSubscriber).1
  | n + 1 => reconnectTimerFire (onClose 1006 (retryRun n))

/-- Scenario for claim C1, step 1: a subscribed default subscriber suffers a
non-clean close (code 1006), which schedules a reconnect timer. -/
def c1AfterClose : WsState := onClose 1006 (subscribeFn initSubscriber).1

/-- Scenario for claim C1, step 2: `unsubscribe()` runs while the reconnect
timer is still pending. -/
def c1AfterUnsub : WsState := (unsubscribeFn c1AfterClose).1

/-- Scenario for claim C1, step 3: the pending reconnect timer fires after the
`unsubscribe()` call. -/
def c1Final : WsState := reconnectTimerFire c1AfterUnsub

/-- Claims of a token that expired at epoch second 50. -/
def decodedT : DecodedToken := ⟨"orders", "main", "sub1", 50⟩

/-- Claims of a fresh replacement token expiring at epoch second 1000. -/
def decodedU : DecodedToken := ⟨"orders", "main", "sub1", 1000⟩

/-- Decode collaborator knowing the two concrete tokens of the scenarios. -/
def decodeTU : String → Option DecodedToken :=
  fun t => if t = "t" then some decodedT else if t = "u" then some decodedU else none

/-- Environment at epoch second 100: the cached token (exp 50) is expired and
the fetcher resolves to the fresh token. -/
def envC2 : AuthEnv :=
  { now := 100
    fetch := .ok (.str "u")
    decode := decodeTU }

/-- Environment at epoch second 50: the cached token expires exactly now
(exp = now), the boundary the expiry check treats as still valid. -/
def envBoundary : AuthEnv :=
  { now := 50
    fetch := .ok (.str "u")
    decode := decodeTU }

/-- Environment whose fetcher resolves to `null`. -/
def envNullFetch : AuthEnv :=
  { now := 0
    fetch := .ok .nullv
    decode := fun _ => none }

/-- Environment whose fetcher rejects. -/
def envReject : AuthEnv :=
  { now := 100
    fetch := .error ()
    decode := decodeTU }

/-! Theorems. General lemmas first, then one theorem per claim (with the
witness or counterexample the claim needs). -/

theorem subscribeFn_preserves_timeouts (s : WsState) :
    ((subscribeFn s).1).reconnectTimeout = s.reconnectTimeout ∧
    ((subscribeFn s).1).maxReconnectTimeout = s.maxReconnectTimeout := by
  unfold subscribeFn
  split <;> exact ⟨rfl, rfl⟩

theorem reconnectTimerFire_timeout (s : WsState) :
    (reconnectTimerFire s).reconnectTimeout =
      min (s.reconnectTimeout * (3 / 2)) s.maxReconnectTimeout ∧
    (reconnectTimerFire s).maxReconnectTimeout = s.maxReconnectTimeout := by
  unfold reconnectTimerFire
  exact ⟨(subscribeFn_preserves_timeouts _).1, (subscribeFn_preserves_timeouts _).2⟩

/-- C1: the spec requires that an `unsubscribe()` issued while a reconnect
timer is pending prevents the timer from opening a new socket. The code does
the opposite: `unsubscribe()` clears `isSubscribed`, so when the timer fires,
its `subscribe()` call passes the `isSubscribed` guard and constructs a second
WebSocket. Evaluated at the failing input: subscribe, non-clean close
(code 1006, one timer pending), unsubscribe (which itself succeeds), timer
fires — the subscriber ends up resubscribed with a second socket created. -/
theorem exoquic_c1_unsubscribe_then_timer_opens_socket :
    c1AfterClose.pendingReconnects = 1 ∧
    (unsubscribeFn c1AfterClose).2 = none ∧
    c1AfterUnsub.isSubscribed = false ∧
    c1Final.socketsCreated = 2 ∧
    c1Final.isSubscribed = true := by
  refine ⟨?_, ?_, ?_, ?_, ?_⟩ <;>
    simp [c1Final, c1AfterUnsub, c1AfterClose, reconnectTimerFire, unsubscribeFn,
      onClose, subscribeFn, initSubscriber, newAuthorizedSubscriber,
      DEFAULT_AUTHORIZED_SUBSCRIPTION_SETTINGS]

/-- C5: a close event with code 1000 never schedules a reconnection attempt,
whatever `shouldReconnect` is; a close event with any other code while
`shouldReconnect` is set schedules exactly one, with the current
`reconnectTimeout` as its wait. -/
theorem exoquic_c5_clean_close_never_reconnects (s : WsState) (code : Nat) :
    (onClose 1000 s).pendingReconnects = s.pendingReconnects ∧
    (onClose 1000 s).scheduledDelays = s.scheduledDelays ∧
    (code ≠ 1000 → s.shouldReconnect = true →
      (onClose code s).pendingReconnects = s.pendingReconnects + 1 ∧
      (onClose code s).scheduledDelays = s.scheduledDelays ++ [s.reconnectTimeout]) := by
  refine ⟨by simp [onClose], by simp [onClose], fun hcode hrec => ⟨?_, ?_⟩⟩ <;>
    simp [onClose, hcode, hrec]

/-- Witness for C5 at concrete inputs: a clean close on a subscribed default
subscriber schedules nothing; a 1006 close schedules one reconnect. -/
theorem exoquic_c5_witness :
    (onClose 1000 ((subscribeFn initSubscriber).1)).pendingReconnects =
      ((subscribeFn initSubscriber).1).pendingReconnects ∧
    (onClose 1006 ((subscribeFn initSubscriber).1)).pendingReconnects =
      ((subscribeFn initSubscriber).1).pendingReconnects + 1 := by
  refine ⟨(exoquic_c5_clean_close_never_reconnects ((subscribeFn initSubscriber).1) 1006).1,
    ((exoquic_c5_clean_close_never_reconnects ((subscribeFn initSubscriber).1) 1006).2.2
      (by decide) ?_).1⟩
  simp [subscribeFn, initSubscriber, newAuthorizedSubscriber,
    DEFAULT_AUTHORIZED_SUBSCRIPTION_SETTINGS]

/-- C7: calling `subscribe()` twice without an intervening `unsubscribe()`
opens exactly one socket: the first call creates one WebSocket and sets
`isSubscribed`; the second returns under the guard with the state unchanged. -/
theorem exoquic_c7_subscribe_idempotent (s : WsState) (h : s.isSubscribed = false) :
    (subscribeFn (subscribeFn s).1).1 = (subscribeFn s).1 ∧
    (subscribeFn (subscribeFn s).1).2 = none ∧
    ((subscribeFn s).1).socketsCreated = s.socketsCreated + 1 ∧
    ((subscribeFn s).1).isSubscribed = true := by
  simp [subscribeFn, h]

/-- Witness for C7 at the fresh default subscriber. -/
theorem exoquic_c7_witness :
    (subscribeFn (subscribeFn initSubscriber).1).1 = (subscribeFn initSubscriber).1 ∧
    ((subscribeFn initSubscriber).1).socketsCreated = initSubscriber.socketsCreated + 1 := by
  obtain ⟨h1, _, h3, _⟩ := exoquic_c7_subscribe_idempotent initSubscriber rfl
  exact ⟨h1, h3⟩

/-- C9: the constructor never assigns `this.ws`, so `unsubscribe()` on a
subscriber that never subscribed throws a `TypeError`; any `subscribe()` from
an unsubscribed state assigns the socket, after which `unsubscribe()` throws
nothing. -/
theorem exoquic_c9_unsubscribe_before_subscribe_throws
    (settings : ConnectionSettings) (s : WsState) (n : Nat) :
    (unsubscribeFn (newAuthorizedSubscriber settings)).2 = some JsError.typeError ∧
    (s.isSubscribed = false → ((subscribeFn s).1).ws = some s.socketsCreated) ∧
    (s.ws = some n → (unsubscribeFn s).2 = none) := by
  refine ⟨?_, fun h => ?_, fun h => ?_⟩
  · simp [unsubscribeFn, newAuthorizedSubscriber]
  · simp [subscribeFn, h]
  · simp [unsubscribeFn, h]

/-- Witness for C9: the fresh default subscriber throws on `unsubscribe()`;
after one `subscribe()` it does not. -/
theorem exoquic_c9_witness :
    (unsubscribeFn initSubscriber).2 = some JsError.typeError ∧
    (unsubscribeFn (subscribeFn initSubscriber).1).2 = none := by
  refine ⟨(exoquic_c9_unsubscribe_before_subscribe_throws
      DEFAULT_AUTHORIZED_SUBSCRIPTION_SETTINGS initSubscriber 0).1,
    (exoquic_c9_unsubscribe_before_subscribe_throws
      DEFAULT_AUTHORIZED_SUBSCRIPTION_SETTINGS ((subscribeFn initSubscriber).1) 0).2.2 ?_⟩
  simp [subscribeFn, initSubscriber, newAuthorizedSubscriber,
    DEFAULT_AUTHORIZED_SUBSCRIPTION_SETTINGS]

/-- C10: `subscribe()` returns the subscriber itself (`return this`) when it
actually opens a session, and returns no value (`undefined`) when
`isSubscribed` is already set. -/
theorem exoquic_c10_subscribe_return_value (s : WsState) :
    (s.isSubscribed = true → (subscribeFn s).2 = none) ∧
    (s.isSubscribed = false → (subscribeFn s).2 = some (subscribeFn s).1) := by
  constructor <;> intro h <;> simp [subscribeFn, h]

/-- Witness for C10: the first call on the fresh default subscriber returns
the subscriber, the second returns nothing. -/
theorem exoquic_c10_witness :
    (subscribeFn initSubscriber).2 = some (subscribeFn initSubscriber).1 ∧
    (subscribeFn (subscribeFn initSubscriber).1).2 = none := by
  refine ⟨(exoquic_c10_subscribe_return_value initSubscriber).2 rfl,
    (exoquic_c10_subscribe_return_value (subscribeFn initSubscriber).1).1 ?_⟩
  simp [subscribeFn, initSubscriber, newAuthorizedSubscriber,
    DEFAULT_AUTHORIZED_SUBSCRIPTION_SETTINGS]

theorem foldl_snoc (l acc : List Batch) :
    List.foldl (fun acc b => acc ++ [b]) acc l = acc ++ l := by
  induction l generalizing acc with
  | nil => simp
  | cons b t ih => simp [List.foldl_cons, ih]

theorem drainCached_eq (cached : List Batch) : drainCached cached = cached := by
  unfold drainCached
  simpa using foldl_snoc cached []

theorem liveFold_fst (live : List Batch) (d st : List Batch) :
    (live.foldl liveStepV1 (d, st)).1 = d ++ live := by
  induction live generalizing d st with
  | nil => simp
  | cons b t ih => simp [liveStepV1, ih]

/-- C4: on the cache-enabled path, a `subscribe()` with partition contents
`[A, B]` delivers `A`, then `B`, then the live batches in arrival order; in
general the callback sees exactly the replayed batches (insertion order)
followed by the live batches, because the message handler is wired only after
the replay drain. -/
theorem exoquic_c4_replay_before_live :
    (∀ (A B : Batch) (live : List Batch),
      (subscribeCachedRunV1 [A, B] live).1 = A :: B :: live) ∧
    (∀ (cached live : List Batch),
      (subscribeCachedRunV1 cached live).1 = cached ++ live) := by
  have hgen : ∀ (cached live : List Batch),
      (subscribeCachedRunV1 cached live).1 = cached ++ live := by
    intro cached live
    unfold subscribeCachedRunV1
    rw [drainCached_eq]
    exact liveFold_fst live cached cached
  exact ⟨fun A B live => by simpa using hgen [A, B] live, hgen⟩

/-- C3 counterexample: a message whose payload deserializes to the empty
sequence is still delivered. On the cache-disabled path (every revision) the
callback is invoked with the empty batch, and on the cache-enabled path of the
primary revision it is both delivered and appended to the partition — so the
claimed behavior does not hold on both paths. -/
theorem exoquic_c3_counterexample :
    onmessageNoCache ([] : Batch) = [([] : Batch)] ∧
    onmessageCachedUnguarded ([] : Batch) = ([[]], [[]]) := by
  exact ⟨rfl, rfl⟩

/-- C3 amended: only the cache-enabled handler of the second revision (the one
with the `length <= 0` guard) drops empty batches — there an empty batch
reaches neither the callback nor the partition, while a nonempty batch reaches
both; the cache-enabled handler of the primary revision and the cache-disabled
handler deliver every batch, empty ones included. -/
theorem exoquic_c3_empty_batch_amended (b : Batch) :
    (b = [] → onmessageCachedGuarded b = ([], [])) ∧
    (b ≠ [] → onmessageCachedGuarded b = ([b], [b])) ∧
    onmessageCachedUnguarded b = ([b], [b]) ∧
    onmessageNoCache b = [b] := by
  refine ⟨fun h => ?_, fun h => ?_, rfl, rfl⟩
  · subst h; rfl
  · simp [onmessageCachedGuarded, Nat.le_zero, List.length_eq_zero, h]

/-- Witness for the amended C3 at an empty and at a nonempty batch. -/
theorem exoquic_c3_amended_witness :
    onmessageCachedGuarded ([] : Batch) = ([], []) ∧
    onmessageCachedGuarded [5] = ([[5]], [[5]]) := by
  exact ⟨(exoquic_c3_empty_batch_amended []).1 rfl,
    (exoquic_c3_empty_batch_amended [5]).2.1 (by decide)⟩

theorem delaySeq_zero : delaySeq 0 = 1000 := rfl

theorem delaySeq_succ (n : Nat) :
    delaySeq (n + 1) = min (delaySeq n * (3 / 2)) 10000 := rfl

theorem delaySeq_one : delaySeq 1 = 1500 := by
  have h : delaySeq 1 = min ((1000 : ℚ) * (3 / 2)) 10000 := rfl
  rw [h, min_eq_left (by norm_num)]
  norm_num

theorem delaySeq_two : delaySeq 2 = 2250 := by
  have h : delaySeq 2 = min (delaySeq 1 * (3 / 2)) 10000 := rfl
  rw [h, delaySeq_one, min_eq_left (by norm_num)]
  norm_num

theorem delaySeq_three : delaySeq 3 = 3375 := by
  have h : delaySeq 3 = min (delaySeq 2 * (3 / 2)) 10000 := rfl
  rw [h, delaySeq_two, min_eq_left (by norm_num)]
  norm_num

theorem delaySeq_nonneg (n : Nat) : 0 ≤ delaySeq n := by
  induction n with
  | zero => rw [delaySeq_zero]; norm_num
  | succ n ih =>
    rw [delaySeq_succ]
    exact le_min (mul_nonneg ih (by norm_num)) (by norm_num)

theorem delaySeq_le_cap (n : Nat) : delaySeq n ≤ 10000 := by
  cases n with
  | zero => rw [delaySeq_zero]; norm_num
  | succ n => rw [delaySeq_succ]; exact min_le_right _ _

theorem delaySeq_mono (n : Nat) : delaySeq n ≤ delaySeq (n + 1) := by
  rw [delaySeq_succ]
  refine le_min ?_ (delaySeq_le_cap n)
  have h := delaySeq_nonneg n
  linarith

theorem fireIter_timeout (n : Nat) :
    (reconnectTimerFire^[n] initSubscriber).reconnectTimeout = delaySeq n ∧
    (reconnectTimerFire^[n] initSubscriber).maxReconnectTimeout = 10000 := by
  induction n with
  | zero => exact ⟨rfl, rfl⟩
  | succ n ih =>
    rw [Function.iterate_succ_apply']
    obtain ⟨h1, h2⟩ := ih
    refine ⟨?_, ?_⟩
    · rw [(reconnectTimerFire_timeout _).1, h1, h2, delaySeq_succ]
    · rw [(reconnectTimerFire_timeout _).2, h2]

theorem onClose_preserves_timeouts (code : Nat) (s : WsState) :
    (onClose code s).reconnectTimeout = s.reconnectTimeout ∧
    (onClose code s).maxReconnectTimeout = s.maxReconnectTimeout := by
  simp only [onClose]
  split <;> exact ⟨rfl, rfl⟩

theorem unsubscribeFn_preserves_timeouts (s : WsState) :
    ((unsubscribeFn s).1).reconnectTimeout = s.reconnectTimeout ∧
    ((unsubscribeFn s).1).maxReconnectTimeout = s.maxReconnectTimeout := by
  obtain ⟨a, b, c, d, e, f, g, h, i⟩ := s
  cases f <;> exact ⟨rfl, rfl⟩

theorem step_timeout_mono (e : SubEvent) (s : WsState)
    (h0 : 0 ≤ s.reconnectTimeout) (hcap : s.reconnectTimeout ≤ s.maxReconnectTimeout) :
    s.reconnectTimeout ≤ (step e s).reconnectTimeout ∧
    (step e s).reconnectTimeout ≤ s.maxReconnectTimeout := by
  cases e with
  | subscribeCall =>
    have h : step SubEvent.subscribeCall s = (subscribeFn s).1 := rfl
    rw [h, (subscribeFn_preserves_timeouts s).1]
    exact ⟨le_refl _, hcap⟩
  | openEvt =>
    have h : (step SubEvent.openEvt s).reconnectTimeout = s.reconnectTimeout := rfl
    rw [h]
    exact ⟨le_refl _, hcap⟩
  | closeEvt code =>
    have h : step (SubEvent.closeEvt code) s = onClose code s := rfl
    rw [h, (onClose_preserves_timeouts code s).1]
    exact ⟨le_refl _, hcap⟩
  | timerFire =>
    have h : step SubEvent.timerFire s = reconnectTimerFire s := rfl
    rw [h, (reconnectTimerFire_timeout s).1]
    refine ⟨le_min (by linarith) hcap, min_le_right _ _⟩
  | unsubscribeCall =>
    have h : step SubEvent.unsubscribeCall s = (unsubscribeFn s).1 := rfl
    rw [h, (unsubscribeFn_preserves_timeouts s).1]
    exact ⟨le_refl _, hcap⟩

theorem onClose_dirty (code : Nat) (s : WsState) (hc : code ≠ 1000)
    (hr : s.shouldReconnect = true) :
    onClose code s = { s with
      isConnected := false
      pendingReconnects := s.pendingReconnects + 1
      scheduledDelays := s.scheduledDelays ++ [s.reconnectTimeout] } := by
  simp [onClose, hr, hc]

theorem reconnectTimerFire_subscribed (s : WsState) (h : s.isSubscribed = true) :
    reconnectTimerFire s = { s with
      reconnectTimeout := min (s.reconnectTimeout * (3 / 2)) s.maxReconnectTimeout
      pendingReconnects := s.pendingReconnects - 1 } := by
  simp [reconnectTimerFire, subscribeFn, h]

theorem retryRun_state (n : Nat) :
    (retryRun n).scheduledDelays = (List.range n).map delaySeq ∧
    (retryRun n).reconnectTimeout = delaySeq n ∧
    (retryRun n).maxReconnectTimeout = 10000 ∧
    (retryRun n).shouldReconnect = true ∧
    (retryRun n).isSubscribed = true := by
  induction n with
  | zero => exact ⟨rfl, rfl, rfl, rfl, rfl⟩
  | succ n ih =>
    obtain ⟨hd, hrt, hmax, hsr, hsub⟩ := ih
    have hstep : retryRun (n + 1) = reconnectTimerFire (onClose 1006 (retryRun n)) := rfl
    rw [hstep, onClose_dirty 1006 (retryRun n) (by decide) hsr,
      reconnectTimerFire_subscribed _ (by simpa using hsub)]
    refine ⟨?_, ?_, ?_, ?_, ?_⟩
    · simp [hd, hrt, List.range_succ]
    · simp [hrt, hmax, delaySeq_succ]
    · simpa using hmax
    · simpa using hsr
    · simpa using hsub

/-- C6: under default settings the waits scheduled before consecutive
reconnection attempts within one session are 1000, 1500, 2250, 3375
milliseconds (conjunct on `retryRun`), each subsequent value of the
`reconnectTimeout` field is `min(previous * 1.5, 10000)` (the `delaySeq`
recurrence, realized by the timer-fire iteration), and the field grows
monotonically, never exceeds `maxReconnectTimeout`, and is decreased or reset
by no event of the subscriber lifecycle. -/
theorem exoquic_c6_backoff_policy (n : Nat) (e : SubEvent) (s : WsState)
    (h0 : 0 ≤ s.reconnectTimeout) (hcap : s.reconnectTimeout ≤ s.maxReconnectTimeout) :
    delaySeq 0 = 1000 ∧ delaySeq 1 = 1500 ∧ delaySeq 2 = 2250 ∧ delaySeq 3 = 3375 ∧
    delaySeq (n + 1) = min (delaySeq n * (3 / 2)) 10000 ∧
    (reconnectTimerFire^[n] initSubscriber).reconnectTimeout = delaySeq n ∧
    (retryRun 4).scheduledDelays = [1000, 1500, 2250, 3375] ∧
    delaySeq n ≤ delaySeq (n + 1) ∧
    delaySeq n ≤ 10000 ∧
    s.reconnectTimeout ≤ (step e s).reconnectTimeout ∧
    (step e s).reconnectTimeout ≤ s.maxReconnectTimeout := by
  refine ⟨delaySeq_zero, delaySeq_one, delaySeq_two, delaySeq_three, delaySeq_succ n,
    (fireIter_timeout n).1, ?_, delaySeq_mono n, delaySeq_le_cap n,
    (step_timeout_mono e s h0 hcap).1, (step_timeout_mono e s h0 hcap).2⟩
  rw [(retryRun_state 4).1, show List.range 4 = [0, 1, 2, 3] from by decide]
  simp [delaySeq_zero, delaySeq_one, delaySeq_two, delaySeq_three]

/-- Witness for C6 at timer-fire number 0, the timer-fire event, and the
fresh default subscriber. -/
theorem exoquic_c6_witness :
    (retryRun 4).scheduledDelays = [1000, 1500, 2250, 3375] ∧
    initSubscriber.reconnectTimeout ≤
      (step SubEvent.timerFire initSubscriber).reconnectTimeout := by
  obtain ⟨-, -, -, -, -, -, h7, -, -, h10, -⟩ :=
    exoquic_c6_backoff_policy 0 SubEvent.timerFire initSubscriber
      (by norm_num [initSubscriber, newAuthorizedSubscriber,
        DEFAULT_AUTHORIZED_SUBSCRIPTION_SETTINGS])
      (by norm_num [initSubscriber, newAuthorizedSubscriber,
        DEFAULT_AUTHORIZED_SUBSCRIPTION_SETTINGS])
  exact ⟨h7, h10⟩

/-- C2 counterexample: in the primary revision, at epoch second 100 with a
cached token whose decoded expiry is 50 (strictly less than now), the expiry
branch fires — a replacement is fetched (one fetcher call) and persisted —
yet the replay-cache partition is returned exactly as it came in, not
cleared: the claimed fetch-persist-purge conjunction fails on the purge. -/
theorem exoquic_c2_counterexample :
    authorizeSubscriberV1 envC2 (some (JsVal.str "t")) [[1]] =
      (1, .ok ⟨JsVal.str "u", decodedU, some (JsVal.str "u"), [[1]]⟩) ∧
    ([[1]] : List Batch) ≠ [] := by
  exact ⟨by decide, by decide⟩

/-- C2 amended: in both cache-enabled revisions a cached decodable token
triggers a replacement fetch and persist exactly when its decoded expiry is
strictly below the current epoch second, and a token whose expiry equals now
is reused as-is with no fetch and no purge; on expiry, however, only the
part_000 revision clears the registered replay-cache partitions — the primary
revision returns its partition untouched. -/
theorem exoquic_c2_expiry_refresh (env : AuthEnv) (s u : String) (d d2 : DecodedToken)
    (plist : List Batch) (subs : List String) (parts : List (String × List Batch)) :
    (s ≠ "" → env.decode s = some d → ¬ d.exp < env.now →
      authorizeSubscriberV1 env (some (.str s)) plist =
        (0, .ok ⟨.str s, d, some (.str s), plist⟩)) ∧
    (s ≠ "" → env.decode s = some d → d.exp < env.now →
      env.fetch = .ok (.str u) → u ≠ "" → env.decode u = some d2 →
      authorizeSubscriberV1 env (some (.str s)) plist =
        (1, .ok ⟨.str u, d2, some (.str u), plist⟩)) ∧
    (s ≠ "" → env.decode s = some d → ¬ d.exp < env.now →
      authorizeSubscriberP env subs (some (.str s)) parts =
        (0, .ok ⟨.str s, d, some (.str s), parts⟩)) ∧
    (s ≠ "" → env.decode s = some d → d.exp < env.now →
      env.fetch = .ok (.str u) → u ≠ "" → env.decode u = some d2 →
      authorizeSubscriberP env subs (some (.str s)) parts =
        (1, .ok ⟨.str u, d2, some (.str u), clearSubscriberPartitions subs parts⟩)) := by
  refine ⟨fun hs hdec hexp =>
      by simp [authorizeSubscriberV1, jwtDecodeE, finishV1, JsVal.falsy, hs, hdec, hexp],
    fun hs hdec hexp hf hu hdec2 =>
      by simp [authorizeSubscriberV1, jwtDecodeE, finishV1, JsVal.falsy,
        hs, hdec, hexp, hf, hu, hdec2],
    fun hs hdec hexp =>
      by simp [authorizeSubscriberP, jwtDecodeE, finishP, JsVal.falsy, hs, hdec, hexp],
    fun hs hdec hexp hf hu hdec2 =>
      by simp [authorizeSubscriberP, jwtDecodeE, finishP, JsVal.falsy,
        hs, hdec, hexp, hf, hu, hdec2]⟩

/-- Witness for the amended C2: a token expiring exactly now (exp = 50 = now)
is reused with no fetch and no purge in both revisions; an expired token
(exp = 50 < now = 100) is replaced with one fetch, with the partition kept in
the primary revision and the registered partition cleared in part_000. -/
theorem exoquic_c2_expiry_refresh_witness :
    authorizeSubscriberV1 envBoundary (some (JsVal.str "t")) [[1]] =
      (0, .ok ⟨JsVal.str "t", decodedT, some (JsVal.str "t"), [[1]]⟩) ∧
    authorizeSubscriberP envBoundary ["p1"] (some (JsVal.str "t"))
        [("p1", [[1], [2]]), ("q", [[3]])] =
      (0, .ok ⟨JsVal.str "t", decodedT, some (JsVal.str "t"),
        [("p1", [[1], [2]]), ("q", [[3]])]⟩) ∧
    authorizeSubscriberP envC2 ["p1"] (some (JsVal.str "t"))
        [("p1", [[1], [2]]), ("q", [[3]])] =
      (1, .ok ⟨JsVal.str "u", decodedU, some (JsVal.str "u"),
        [("p1", []), ("q", [[3]])]⟩) := by
  refine ⟨(exoquic_c2_expiry_refresh envBoundary "t" "u" decodedT decodedU [[1]] []
      []).1 (by decide) (by decide) (by decide),
    (exoquic_c2_expiry_refresh envBoundary "t" "u" decodedT decodedU []
      ["p1"] [("p1", [[1], [2]]), ("q", [[3]])]).2.2.1 (by decide) (by decide) (by decide),
    ((exoquic_c2_expiry_refresh envC2 "t" "u" decodedT decodedU []
      ["p1"] [("p1", [[1], [2]]), ("q", [[3]])]).2.2.2 (by decide) (by decide) (by decide)
      (by decide) (by decide) (by decide)).trans (by decide)⟩

/-- C8: when the fetcher resolves to null, to a non-string value, or to the
empty string, `authorizeSubscriber` fails with the invalid-token error before
returning a subscriber, on the cache-disabled path and on the cache-enabled
(cache-miss) path alike; when the fetcher rejects, the rejection propagates to
the caller after exactly one fetcher call — also from the expired-cached-token
branch — so the fetch is never retried. -/
theorem exoquic_c8_auth_failures (env : AuthEnv) (plist : List Batch) :
    ((env.fetch = .ok .nullv ∨ env.fetch = .ok .obj ∨ env.fetch = .ok (.str "")) →
      authorizeSubscriberNoCache env = (1, .error .invalidToken) ∧
      authorizeSubscriberV1 env none plist = (1, .error .invalidToken)) ∧
    (env.fetch = .error () →
      authorizeSubscriberNoCache env = (1, .error .fetchRejected) ∧
      authorizeSubscriberV1 env none plist = (1, .error .fetchRejected)) ∧
    (∀ (s : String) (d : DecodedToken), s ≠ "" → env.decode s = some d →
      d.exp < env.now → env.fetch = .error () →
      authorizeSubscriberV1 env (some (.str s)) plist = (1, .error .fetchRejected)) := by
  refine ⟨fun hbad => ?_, fun hrej => ?_, fun s d hs hdec hexp hrej => ?_⟩
  · rcases hbad with h | h | h <;>
      exact ⟨by simp [authorizeSubscriberNoCache, jwtDecodeE, h],
        by simp [authorizeSubscriberV1, jwtDecodeE, JsVal.falsy, h]⟩
  · exact ⟨by simp [authorizeSubscriberNoCache, hrej],
      by simp [authorizeSubscriberV1, JsVal.falsy, hrej]⟩
  · simp [authorizeSubscriberV1, jwtDecodeE, JsVal.falsy, hs, hdec, hexp, hrej]

/-- Witness for C8: a null fetcher result fails both paths with the
invalid-token error; a rejecting fetcher propagates after one call, both on a
cache miss and from the expired-cached-token branch. -/
theorem exoquic_c8_witness :
    authorizeSubscriberNoCache envNullFetch = (1, .error .invalidToken) ∧
    authorizeSubscriberV1 envNullFetch none [] = (1, .error .invalidToken) ∧
    authorizeSubscriberNoCache envReject = (1, .error .fetchRejected) ∧
    authorizeSubscriberV1 envReject (some (JsVal.str "t")) [] =
      (1, .error .fetchRejected) := by
  refine ⟨((exoquic_c8_auth_failures envNullFetch []).1 (Or.inl (by decide))).1,
    ((exoquic_c8_auth_failures envNullFetch []).1 (Or.inl (by decide))).2,
    ((exoquic_c8_auth_failures envReject []).2.1 (by decide)).1,
    (exoquic_c8_auth_failures envReject []).2.2 "t" decodedT (by decide) (by decide)
      (by decide) (by decide)⟩
